import Mathlib

/-!
Shallow embedding of `src/server.py` from catlee/fota-server.

The server authorizes requests against an IMEI allowlist and redirects
authorized requests to a signed S3 URL.  We model:

* JSON documents (`Json`), as delivered by `resp.json()`;
* the hashable JSON scalars (`JScalar`) — in Python only hashable values
  can be inserted into a `set`, so `self.imei_whitelist` can only ever
  hold scalars (an unhashable `imei` value raises `TypeError`, which the
  bare `except:` in `load_whitelist` catches);
* `make_object_url` (src/server.py lines 22-56), with the call to
  `s3.generate_presigned_url` left abstract: its argument bundle
  (`PresignedRequest`) stands for the signed URL it would return, and
  the `ValueError` branch is an `Except.error`;
* the `Server` class state and `handle_request` (lines 94-128), where an
  uncaught exception (the `assert`, or a `ValueError` from
  `make_object_url`) is modelled as `HandleResult.raised`;
* `load_whitelist` (lines 76-91), as a state transformer parameterised
  by the outcome of the network fetch (`FetchOutcome`); the scheduling
  performed by `loop.call_later` in the `finally:` block is returned as
  the list of delays (in seconds) of the refresh tasks scheduled by the
  attempt.
-/

/-- A JSON value, as produced by `resp.json()`. -/
inductive Json where
  | null
  | bool (b : Bool)
  | num (n : Int)
  | str (s : String)
  | arr (elems : List Json)
  | obj (fields : List (String × Json))

/-- The hashable JSON scalars: the only values a Python `set` can hold.
`arr`/`obj` values are unhashable and raise `TypeError` on insertion. -/
inductive JScalar where
  | null
  | bool (b : Bool)
  | num (n : Int)
  | str (s : String)
  deriving DecidableEq, Repr

/-- Python `set` insertion: scalars are hashable, lists/dicts raise. -/
def Json.asScalar? : Json → Option JScalar
  | .null => some .null
  | .bool b => some (.bool b)
  | .num n => some (.num n)
  | .str s => some (.str s)
  | _ => none

/-- Python `x[k]` for a string key `k`: a dict lookup (`KeyError` when the
key is absent); on any non-dict value subscripting raises `TypeError`. -/
def Json.get? : Json → String → Option Json
  | .obj fields, k => (fields.find? (fun p => p.1 == k)).map Prod.snd
  | _, _ => none

/-- Python iteration `for w in x`: a list yields its elements, a dict its
keys, a string its one-character substrings; other values raise
`TypeError`. -/
def Json.iterate? : Json → Option (List Json)
  | .arr elems => some elems
  | .obj fields => some (fields.map (fun p => Json.str p.1))
  | .str s => some (s.data.map (fun c => Json.str (String.mk [c])))
  | _ => none

/-- Python `str.lstrip` with a one-character argument: remove ALL leading
occurrences of that character. -/
def lstrip (s : String) (c : Char) : String :=
  String.mk (s.data.dropWhile (fun ch => ch == c))

/-- Python `dict.update`: `base` keys keep their position but take the
updating value; keys only in `upd` are appended. -/
def dictUpdate (base upd : List (String × Json)) : List (String × Json) :=
  (base.map (fun p =>
    match upd.find? (fun q => q.1 == p.1) with
    | some q => q
    | none => p))
  ++ upd.filter (fun q => base.all (fun p => !(p.1 == q.1)))

/-- The argument bundle handed to `s3.generate_presigned_url`; it stands
for the signed URL that call would mint. -/
structure PresignedRequest where
  api_method : String
  api_args : List (String × Json)
  expires_in : Nat
  http_method : String

/-- Model of `make_object_url` (src/server.py lines 22-56).  `ValueError` for an
unsupported method becomes `Except.error`; a successful run returns the
`PresignedRequest` passed to `s3.generate_presigned_url`. -/
def make_object_url (bucket_name object_name request_method : String)
    (expires_in : Nat) (api_kwargs : List (String × Json)) :
    Except String PresignedRequest :=
  if request_method = "GET" ∨ request_method = "HEAD" then
    .ok { api_method := "get_object"
          api_args := dictUpdate
            [("Bucket", Json.str bucket_name), ("Key", Json.str object_name)]
            api_kwargs
          expires_in := expires_in
          http_method := request_method }
  else if request_method = "PUT" ∨ request_method = "POST" then
    .ok { api_method := "put_object"
          api_args := dictUpdate
            [("Bucket", Json.str bucket_name), ("Key", Json.str object_name)]
            api_kwargs
          expires_in := expires_in
          http_method := request_method }
  else
    .error ("Unsupported request_method: " ++ request_method)

/-- The mutable state of the `Server` class, plus its configuration
(class attributes `expiry_time`, `whitelist_refresh_period`). -/
structure Server where
  bucket_name : String
  whitelist_object_name : String
  imei_whitelist : List JScalar
  expiry_time : Nat
  whitelist_refresh_period : Nat

/-- An inbound HTTP request: method, path, and the parsed query string
(`request.GET` is a multidict; lookup returns the first value). -/
structure Request where
  method : String
  path : String
  query : List (String × String)

/-- Python `request.GET[k]` guarded by `k in request.GET`: the first value bound
to the key, if any. -/
def Request.getParam (r : Request) (k : String) : Option String :=
  (r.query.find? (fun p => p.1 == k)).map Prod.snd

/-- An `aiohttp.web` response: a plain status/text response, or
`HTTPFound(url)` — a 302 whose Location is the signed URL. -/
inductive HResponse where
  | plain (status : Nat) (text : String)
  | found (location : PresignedRequest)

/-- Outcome of one `handle_request` call: a returned response, or an
uncaught exception (`AssertionError` / `ValueError`), which the
transport surfaces as a 5xx. -/
inductive HandleResult where
  | ok (resp : HResponse)
  | raised (msg : String)

/-- The status code of a plain response, `none` for a redirect or an
uncaught exception. -/
def HandleResult.status? : HandleResult → Option Nat
  | .ok (.plain st _) => some st
  | _ => none

/-- Model of `Server.handle_request` (src/server.py lines 94-128). -/
def handle_request (s : Server) (request : Request) : HandleResult :=
  match request.getParam "imei" with
  | none => .ok (.plain 403 "Forbidden")
  | some imei =>
    if JScalar.str imei ∉ s.imei_whitelist then
      .ok (.plain 401 "Unauthorized")
    else
      let object_name := lstrip request.path '/'
      if object_name = s.whitelist_object_name then
        .ok (.plain 403 "Forbidden")
      else if request.method = "GET" ∨ request.method = "HEAD" then
        match make_object_url s.bucket_name object_name request.method
            s.expiry_time [] with
        | .ok url => .ok (.found url)
        | .error e => .raised e
      else
        .raised "AssertionError"

/-- What the environment delivered to one `load_whitelist` attempt:
an exception before a body was parsed (URL signing, `aiohttp.get`), a
body that `resp.json()` could not parse, or a parsed JSON body.  The
code never inspects the HTTP status: `resp.json()` parses whatever body
came back. -/
inductive FetchOutcome where
  | fetchError
  | bodyNotJson (status : Nat)
  | body (status : Nat) (data : Json)

/-- Python `set(w["imei"] for w in data["whitelist"])`: `none` when any step of
the fetch-free part raises (`KeyError`/`TypeError`); the assignment to
`self.imei_whitelist` happens only if the whole set builds. -/
def extract_imeis (data : Json) : Option (List JScalar) := do
  let wl ← data.get? "whitelist"
  let ws ← wl.iterate?
  ws.mapM (fun w => (w.get? "imei").bind Json.asScalar?)

/-- Whether the attempt reaches the assignment with a fully-built set. -/
def refreshSucceeds (o : FetchOutcome) : Bool :=
  match o with
  | .body _ data => (extract_imeis data).isSome
  | _ => false

/-- Model of `Server.load_whitelist` (src/server.py lines 76-91).  Returns the
state after the attempt together with the delays (seconds) of the
refresh tasks scheduled in the `finally:` block; every exception in the
`try:` block is swallowed by the bare `except:`. -/
def load_whitelist (s : Server) (outcome : FetchOutcome) :
    Server × List Nat :=
  let s' :=
    match outcome with
    | .body _ data =>
      match extract_imeis data with
      | some imeis => { s with imei_whitelist := imeis }
      | none => s
    | _ => s
  (s', [s.whitelist_refresh_period])

/-- The state after `n` refresh attempts with the given fetch outcomes. -/
def refreshTrace (s : Server) (outcomes : Nat → FetchOutcome) :
    Nat → Server
  | 0 => s
  | n + 1 => (load_whitelist (refreshTrace s outcomes n) (outcomes n)).1

/-- Modelled from the spec: "request path with leading path separator
stripped", read as removing a single leading `/` — the reading claimed
by C5, to be compared with the code's `lstrip`. -/
def stripOneLeadingSlash (p : String) : String :=
  if p.data.head? = some '/' then String.mk p.data.tail else p

/-- A path of `n` consecutive separator characters. -/
def slashes (n : Nat) : String :=
  String.mk (List.replicate n '/')

lemma dictUpdate_nil (base : List (String × Json)) : dictUpdate base [] = base := by
  simp [dictUpdate]

/-- Claim C1: a request whose query string has no `imei` parameter is
answered 403, for every method, path and allowlist. -/
theorem c1_missing_imei_gives_403 (s : Server) (r : Request)
    (h : r.getParam "imei" = none) :
    handle_request s r = .ok (.plain 403 "Forbidden") := by
  simp [handle_request, h]

/-- Witness for C1 at a concrete non-GET request with no `imei`. -/
theorem c1_missing_imei_gives_403_witness :
    Request.getParam ⟨"PATCH", "/firmware/v2.bin", [("x", "y")]⟩ "imei" = none ∧
    handle_request ⟨"bkt", "wl", [JScalar.str "123"], 60, 300⟩
        ⟨"PATCH", "/firmware/v2.bin", [("x", "y")]⟩ =
      .ok (.plain 403 "Forbidden") :=
  ⟨rfl, c1_missing_imei_gives_403 _ _ rfl⟩

/-- Claim C2: an `imei` outside the allowlist is answered 401, for every
path; in particular every request is answered 401 while the allowlist is
empty. -/
theorem c2_unknown_imei_gives_401 (s : Server) (r : Request) (imei : String)
    (hp : r.getParam "imei" = some imei)
    (hw : JScalar.str imei ∉ s.imei_whitelist) :
    handle_request s r = .ok (.plain 401 "Unauthorized") := by
  simp [handle_request, hp, hw]

/-- Witness for C2 on an empty allowlist. -/
theorem c2_unknown_imei_gives_401_witness :
    handle_request ⟨"bkt", "wl", [], 60, 300⟩
        ⟨"GET", "/firmware/v2.bin", [("imei", "999999")]⟩ =
      .ok (.plain 401 "Unauthorized") :=
  c2_unknown_imei_gives_401 _ _ "999999" rfl (by decide)

/-- Claim C3: an authorized `imei` whose derived object key equals the
configured allowlist object name is answered 403. -/
theorem c3_whitelist_path_gives_403 (s : Server) (r : Request) (imei : String)
    (hp : r.getParam "imei" = some imei)
    (hw : JScalar.str imei ∈ s.imei_whitelist)
    (hn : lstrip r.path '/' = s.whitelist_object_name) :
    handle_request s r = .ok (.plain 403 "Forbidden") := by
  simp [handle_request, hp, hw, hn]

/-- Witness for C3. -/
theorem c3_whitelist_path_gives_403_witness :
    handle_request ⟨"bkt", "wl", [JScalar.str "123"], 60, 300⟩
        ⟨"GET", "/wl", [("imei", "123")]⟩ =
      .ok (.plain 403 "Forbidden") :=
  c3_whitelist_path_gives_403 _ _ "123" rfl (by decide) rfl

/-- Claim C4: an authorized GET/HEAD request for a non-allowlist key is
redirected, and the redirect target is the signed URL minted for exactly
the configured bucket, the derived key, the request method and the
configured expiry. -/
theorem c4_authorized_request_redirects (s : Server) (r : Request) (imei : String)
    (hm : r.method = "GET" ∨ r.method = "HEAD")
    (hp : r.getParam "imei" = some imei)
    (hw : JScalar.str imei ∈ s.imei_whitelist)
    (hn : ¬ lstrip r.path '/' = s.whitelist_object_name) :
    make_object_url s.bucket_name (lstrip r.path '/') r.method s.expiry_time []
      = .ok ⟨"get_object",
             [("Bucket", Json.str s.bucket_name),
              ("Key", Json.str (lstrip r.path '/'))],
             s.expiry_time, r.method⟩ ∧
    handle_request s r =
      .ok (.found ⟨"get_object",
             [("Bucket", Json.str s.bucket_name),
              ("Key", Json.str (lstrip r.path '/'))],
             s.expiry_time, r.method⟩) := by
  have hmk : make_object_url s.bucket_name (lstrip r.path '/') r.method
      s.expiry_time []
      = .ok ⟨"get_object",
             [("Bucket", Json.str s.bucket_name),
              ("Key", Json.str (lstrip r.path '/'))],
             s.expiry_time, r.method⟩ := by
    rcases hm with h | h <;> simp [make_object_url, h, dictUpdate_nil]
  refine ⟨hmk, ?_⟩
  simp [handle_request, hp, hw, hn, hm, hmk]

/-- Witness for C4. -/
theorem c4_authorized_request_redirects_witness :
    make_object_url "bkt" (lstrip "/firmware/v2.bin" '/') "GET" 60 []
      = .ok ⟨"get_object",
             [("Bucket", Json.str "bkt"),
              ("Key", Json.str (lstrip "/firmware/v2.bin" '/'))],
             60, "GET"⟩ ∧
    handle_request ⟨"bkt", "wl", [JScalar.str "123"], 60, 300⟩
        ⟨"GET", "/firmware/v2.bin", [("imei", "123")]⟩ =
      .ok (.found ⟨"get_object",
             [("Bucket", Json.str "bkt"),
              ("Key", Json.str (lstrip "/firmware/v2.bin" '/'))],
             60, "GET"⟩) :=
  c4_authorized_request_redirects ⟨"bkt", "wl", [JScalar.str "123"], 60, 300⟩
    ⟨"GET", "/firmware/v2.bin", [("imei", "123")]⟩ "123"
    (Or.inl rfl) rfl (by decide) (by decide)

/-- Claim C8: `make_object_url` fails with the unsupported-method error
exactly when the method is none of GET/HEAD/PUT/POST; GET and HEAD are
mapped to the read capability `get_object`, PUT and POST to the write
capability `put_object`. -/
theorem c8_make_object_url_method_contract (b k m : String) (e : Nat)
    (kw : List (String × Json)) :
    (¬ (m = "GET" ∨ m = "HEAD" ∨ m = "PUT" ∨ m = "POST") →
      make_object_url b k m e kw = .error ("Unsupported request_method: " ++ m)) ∧
    (m = "GET" ∨ m = "HEAD" →
      make_object_url b k m e kw =
        .ok ⟨"get_object",
             dictUpdate [("Bucket", Json.str b), ("Key", Json.str k)] kw,
             e, m⟩) ∧
    (m = "PUT" ∨ m = "POST" →
      make_object_url b k m e kw =
        .ok ⟨"put_object",
             dictUpdate [("Bucket", Json.str b), ("Key", Json.str k)] kw,
             e, m⟩) := by
  refine ⟨?_, ?_, ?_⟩
  · intro h
    have h1 : ¬ (m = "GET" ∨ m = "HEAD") := fun hc => h (by tauto)
    have h2 : ¬ (m = "PUT" ∨ m = "POST") := fun hc => h (by tauto)
    simp [make_object_url, h1, h2]
  · intro h
    rcases h with h | h <;> simp [make_object_url, h]
  · intro h
    rcases h with h | h <;> simp [make_object_url, h]

/-- Witness for C8 at DELETE (rejected), HEAD (read) and POST (write). -/
theorem c8_make_object_url_method_contract_witness :
    make_object_url "b" "k" "DELETE" 5 []
      = .error ("Unsupported request_method: " ++ "DELETE") ∧
    make_object_url "b" "k" "HEAD" 5 []
      = .ok ⟨"get_object",
             dictUpdate [("Bucket", Json.str "b"), ("Key", Json.str "k")] [],
             5, "HEAD"⟩ ∧
    make_object_url "b" "k" "POST" 5 []
      = .ok ⟨"put_object",
             dictUpdate [("Bucket", Json.str "b"), ("Key", Json.str "k")] [],
             5, "POST"⟩ :=
  ⟨(c8_make_object_url_method_contract "b" "k" "DELETE" 5 []).1 (by decide),
   (c8_make_object_url_method_contract "b" "k" "HEAD" 5 []).2.1 (Or.inr rfl),
   (c8_make_object_url_method_contract "b" "k" "POST" 5 []).2.2 (Or.inr rfl)⟩

/-- Claim C6 counterexample: a non-2xx response is not by itself a
failing execution.  `load_whitelist` never inspects the response
status — `resp.json()` parses whatever body came back — so a status-500
response carrying a valid whitelist document is a successful attempt
and REPLACES the snapshot, contradicting the claim's premise that every
non-2xx response leaves the set identical. -/
theorem c6_non2xx_success_counterexample :
    refreshSucceeds (.body 500 (.obj [("whitelist",
        .arr [.obj [("imei", .str "new")]])])) = true ∧
    (load_whitelist ⟨"bkt", "wl", [JScalar.str "old"], 60, 300⟩
        (.body 500 (.obj [("whitelist",
          .arr [.obj [("imei", .str "new")]])]))).1.imei_whitelist =
      [JScalar.str "new"] ∧
    [JScalar.str "new"] ≠ [JScalar.str "old"] :=
  ⟨rfl, rfl, by decide⟩

/-- Claim C6 amended: a refresh attempt that raises in the `try:` block
(fetch error, a body that is not valid JSON — the usual fate of a
non-2xx error page — a missing `whitelist` key, a non-iterable
`whitelist` value, or an entry without an `imei` field) leaves the
server state — in particular the allowlist — exactly as it was; the
exception is swallowed by the bare `except:`.  A non-2xx response whose
body nevertheless parses as a valid whitelist document is not a failing
execution: the status is never inspected. -/
theorem c6_failed_refresh_preserves_state (s : Server) (o : FetchOutcome)
    (h : refreshSucceeds o = false) :
    (load_whitelist s o).1 = s := by
  cases o with
  | fetchError => rfl
  | bodyNotJson st => rfl
  | body st data =>
    cases hx : extract_imeis data with
    | none => simp [load_whitelist, hx]
    | some v => simp [refreshSucceeds, hx] at h

/-- Witness for C6: a document with an entry lacking `imei` leaves a
non-empty allowlist untouched. -/
theorem c6_failed_refresh_preserves_state_witness :
    refreshSucceeds
        (.body 200 (.obj [("whitelist", .arr [.obj [("x", .null)]])])) = false ∧
    (load_whitelist ⟨"bkt", "wl", [JScalar.str "123"], 60, 300⟩
        (.body 200 (.obj [("whitelist", .arr [.obj [("x", .null)]])]))).1 =
      ⟨"bkt", "wl", [JScalar.str "123"], 60, 300⟩ :=
  ⟨rfl, c6_failed_refresh_preserves_state _ _ rfl⟩

lemma mapM_option_mem {α β : Type _} (f : α → Option β) :
    ∀ (l : List α) (res : List β), l.mapM f = some res →
      ∀ x, x ∈ res ↔ ∃ a ∈ l, f a = some x := by
  intro l
  induction l with
  | nil =>
    intro res h x
    simp only [List.mapM_nil, Option.pure_def, Option.some.injEq] at h
    subst h
    simp
  | cons a l ih =>
    intro res h x
    rw [List.mapM_cons] at h
    cases hfa : f a with
    | none => rw [hfa] at h; simp at h
    | some b =>
      rw [hfa] at h
      cases hml : l.mapM f with
      | none => rw [hml] at h; simp at h
      | some bs =>
        rw [hml] at h
        simp at h
        subst h
        constructor
        · intro hx
          rcases List.mem_cons.mp hx with hx | hx
          · exact ⟨a, List.mem_cons_self a l, hx ▸ hfa⟩
          · rcases (ih bs hml x).mp hx with ⟨a', ha', hfa'⟩
            exact ⟨a', List.mem_cons_of_mem a ha', hfa'⟩
        · rintro ⟨a', ha', hfa'⟩
          rcases List.mem_cons.mp ha' with rfl | ha'
          · rw [hfa] at hfa'
            exact List.mem_cons.mpr (Or.inl (Option.some.inj hfa').symm)
          · exact List.mem_cons_of_mem b ((ih bs hml x).mpr ⟨a', ha', hfa'⟩)

/-- Claim C7: a successful refresh on a document whose `whitelist` array
extracts cleanly replaces the allowlist with exactly the `imei` values
of the document's entries: nothing else survives, nothing is missing,
other fields are ignored. -/
theorem c7_successful_refresh_replaces_whitelist (s : Server) (st : Nat)
    (data : Json) (ws : List Json) (imeis : List JScalar)
    (hwl : data.get? "whitelist" = some (.arr ws))
    (hex : ws.mapM (fun w => (w.get? "imei").bind Json.asScalar?) = some imeis) :
    (load_whitelist s (.body st data)).1.imei_whitelist = imeis ∧
    ∀ x, x ∈ (load_whitelist s (.body st data)).1.imei_whitelist ↔
      ∃ w ∈ ws, (w.get? "imei").bind Json.asScalar? = some x := by
  have hext : extract_imeis data = some imeis := by
    simp only [extract_imeis, hwl, Json.iterate?, Option.some_bind]
    exact hex
  have hrepl : (load_whitelist s (.body st data)).1.imei_whitelist = imeis := by
    simp [load_whitelist, hext]
  refine ⟨hrepl, fun x => ?_⟩
  rw [hrepl]
  exact mapM_option_mem _ ws imeis hex x

/-- Witness for C7 on `{"whitelist": [{"imei": "1", "extra": null},
{"imei": "2"}]}` over a stale allowlist. -/
theorem c7_successful_refresh_replaces_whitelist_witness :
    (load_whitelist ⟨"bkt", "wl", [JScalar.str "old"], 60, 300⟩
        (.body 200 (.obj [("whitelist", .arr
          [.obj [("imei", .str "1"), ("extra", .null)],
           .obj [("imei", .str "2")]])]))).1.imei_whitelist =
      [JScalar.str "1", JScalar.str "2"] ∧
    ∀ x, x ∈ (load_whitelist ⟨"bkt", "wl", [JScalar.str "old"], 60, 300⟩
        (.body 200 (.obj [("whitelist", .arr
          [.obj [("imei", .str "1"), ("extra", .null)],
           .obj [("imei", .str "2")]])]))).1.imei_whitelist ↔
      ∃ w ∈ [Json.obj [("imei", .str "1"), ("extra", .null)],
             Json.obj [("imei", .str "2")]],
        (w.get? "imei").bind Json.asScalar? = some x :=
  c7_successful_refresh_replaces_whitelist
    ⟨"bkt", "wl", [JScalar.str "old"], 60, 300⟩ 200
    (.obj [("whitelist", .arr
      [.obj [("imei", .str "1"), ("extra", .null)],
       .obj [("imei", .str "2")]])])
    [.obj [("imei", .str "1"), ("extra", .null)], .obj [("imei", .str "2")]]
    [JScalar.str "1", JScalar.str "2"] rfl rfl

lemma load_whitelist_period (s : Server) (o : FetchOutcome) :
    (load_whitelist s o).1.whitelist_refresh_period =
      s.whitelist_refresh_period := by
  cases o with
  | fetchError => rfl
  | bodyNotJson st => rfl
  | body st data =>
    cases hx : extract_imeis data with
    | none => simp [load_whitelist, hx]
    | some v => simp [load_whitelist, hx]

lemma refreshTrace_period (s : Server) (outcomes : Nat → FetchOutcome)
    (n : Nat) :
    (refreshTrace s outcomes n).whitelist_refresh_period =
      s.whitelist_refresh_period := by
  induction n with
  | zero => rfl
  | succ n ih => rw [refreshTrace, load_whitelist_period, ih]

/-- Claim C9: every refresh attempt, failed or successful, schedules
exactly one follow-up refresh, delayed by exactly
`whitelist_refresh_period` seconds from the attempt's completion, so the
chain of attempts never ends. -/
theorem c9_every_attempt_reschedules_once (s : Server)
    (outcomes : Nat → FetchOutcome) (n : Nat) :
    (load_whitelist (refreshTrace s outcomes n) (outcomes n)).2 =
      [s.whitelist_refresh_period] := by
  have : (load_whitelist (refreshTrace s outcomes n) (outcomes n)).2 =
      [(refreshTrace s outcomes n).whitelist_refresh_period] := rfl
  rw [this, refreshTrace_period]

lemma dropWhile_replicate_slash (n : Nat) (l : List Char) :
    (List.replicate n '/' ++ l).dropWhile (fun c => c == '/') =
      l.dropWhile (fun c => c == '/') := by
  induction n with
  | zero => rfl
  | succ n ih => simp [List.replicate_succ, List.dropWhile_cons, ih]

lemma dropWhile_eq_self_of_head (l : List Char) (h : l.head? ≠ some '/') :
    l.dropWhile (fun c => c == '/') = l := by
  cases l with
  | nil => rfl
  | cons c cs =>
    simp only [List.head?_cons, ne_eq, Option.some.injEq] at h
    simp [List.dropWhile_cons, h]

lemma lstrip_slashes_append (n : Nat) (p : String) :
    lstrip (slashes n ++ p) '/' = lstrip p '/' := by
  simp [lstrip, slashes, String.data_append, dropWhile_replicate_slash]

lemma lstrip_eq_self_of_head (p : String) (h : p.data.head? ≠ some '/') :
    lstrip p '/' = p := by
  simp only [lstrip, dropWhile_eq_self_of_head p.data h]

lemma handle_request_path_congr (s : Server) (m : String)
    (q : List (String × String)) (p₁ p₂ : String)
    (h : lstrip p₁ '/' = lstrip p₂ '/') :
    handle_request s ⟨m, p₁, q⟩ = handle_request s ⟨m, p₂, q⟩ := by
  simp only [handle_request, Request.getParam, h]

/-- Claim C5 counterexample: on path `//a` with an authorized `imei`, the
key actually used is `a` (all leading slashes removed), while removing a
single leading separator would give `/a`. -/
theorem c5_single_strip_counterexample :
    handle_request ⟨"bkt", "wl", [JScalar.str "123"], 60, 300⟩
        ⟨"GET", "//a", [("imei", "123")]⟩ =
      .ok (.found ⟨"get_object",
        [("Bucket", Json.str "bkt"), ("Key", Json.str "a")], 60, "GET"⟩) ∧
    stripOneLeadingSlash "//a" = "/a" ∧
    ("a" : String) ≠ "/a" :=
  ⟨rfl, rfl, by decide⟩

/-- Claim C5 amended: the object key `handle_request` redirects to is the
request path with ALL leading `/` characters removed (and no other
transformation). -/
theorem c5_amended_key_strips_all_leading_slashes (s : Server) (r : Request)
    (u : PresignedRequest)
    (h : handle_request s r = .ok (.found u)) :
    u.api_args = [("Bucket", Json.str s.bucket_name),
      ("Key", Json.str (String.mk (r.path.data.dropWhile (fun c => c == '/'))))] := by
  cases hp : r.getParam "imei" with
  | none =>
    have hr : handle_request s r = .ok (.plain 403 "Forbidden") := by
      simp [handle_request, hp]
    rw [hr] at h
    simp at h
  | some imei =>
    by_cases hw : JScalar.str imei ∈ s.imei_whitelist
    · by_cases hn : lstrip r.path '/' = s.whitelist_object_name
      · have hr : handle_request s r = .ok (.plain 403 "Forbidden") := by
          simp [handle_request, hp, hw, hn]
        rw [hr] at h
        simp at h
      · by_cases hm : r.method = "GET" ∨ r.method = "HEAD"
        · have hr : handle_request s r = .ok (.found ⟨"get_object",
              [("Bucket", Json.str s.bucket_name),
               ("Key", Json.str (lstrip r.path '/'))],
              s.expiry_time, r.method⟩) := by
            rcases hm with h' | h' <;>
              simp [handle_request, hp, hw, hn, h', make_object_url, dictUpdate_nil]
          rw [hr] at h
          simp only [HandleResult.ok.injEq, HResponse.found.injEq] at h
          rw [← h]
          rfl
        · have hr : handle_request s r = .raised "AssertionError" := by
            simp [handle_request, hp, hw, hn, hm]
          rw [hr] at h
          simp at h
    · have hr : handle_request s r = .ok (.plain 401 "Unauthorized") := by
        simp [handle_request, hp, hw]
      rw [hr] at h
      simp at h

/-- Witness for the amended C5 at path `//a`. -/
theorem c5_amended_key_strips_all_leading_slashes_witness :
    (⟨"get_object", [("Bucket", Json.str "bkt"), ("Key", Json.str "a")],
        60, "GET"⟩ : PresignedRequest).api_args =
      [("Bucket", Json.str "bkt"),
       ("Key", Json.str (String.mk (("//a" : String).data.dropWhile
          (fun c => c == '/'))))] :=
  c5_amended_key_strips_all_leading_slashes
    ⟨"bkt", "wl", [JScalar.str "123"], 60, 300⟩
    ⟨"GET", "//a", [("imei", "123")]⟩ _ rfl

/-- Claim C10 counterexample: when the configured allowlist object name
itself begins with `/` (here `/wl`), the path consisting of one slash
followed by that name is NOT rejected with 403 — it is redirected,
because `lstrip` also eats the name's own leading slash. -/
theorem c10_leading_slash_name_counterexample :
    handle_request ⟨"bkt", "/wl", [JScalar.str "123"], 60, 300⟩
        ⟨"GET", "//wl", [("imei", "123")]⟩ =
      .ok (.found ⟨"get_object",
        [("Bucket", Json.str "bkt"), ("Key", Json.str "wl")], 60, "GET"⟩) ∧
    ("//wl" : String) = slashes 1 ++ "/wl" ∧
    (handle_request ⟨"bkt", "/wl", [JScalar.str "123"], 60, 300⟩
        ⟨"GET", "//wl", [("imei", "123")]⟩).status? ≠ some 403 :=
  ⟨rfl, by decide, by decide⟩

/-- Claim C10 amended: the derived key removes ALL leading slashes, so
two requests differing only in the number of leading slashes always get
the same response; and when the configured allowlist object name does
not itself start with `/`, an authorized request for `n ≥ 1` slashes
followed by that name is rejected with 403. -/
theorem c10_amended_leading_slashes_collapse :
    (∀ (s : Server) (m : String) (q : List (String × String))
        (n₁ n₂ : Nat) (p : String),
      handle_request s ⟨m, slashes n₁ ++ p, q⟩ =
        handle_request s ⟨m, slashes n₂ ++ p, q⟩) ∧
    (∀ (s : Server) (r : Request) (imei : String) (n : Nat),
      1 ≤ n →
      r.getParam "imei" = some imei →
      JScalar.str imei ∈ s.imei_whitelist →
      s.whitelist_object_name.data.head? ≠ some '/' →
      r.path = slashes n ++ s.whitelist_object_name →
      handle_request s r = .ok (.plain 403 "Forbidden")) := by
  constructor
  · intro s m q n₁ n₂ p
    exact handle_request_path_congr s m q _ _
      (by rw [lstrip_slashes_append, lstrip_slashes_append])
  · intro s r imei n _ hp hw hhead hpath
    have hkey : lstrip r.path '/' = s.whitelist_object_name := by
      rw [hpath, lstrip_slashes_append, lstrip_eq_self_of_head _ hhead]
    simp [handle_request, hp, hw, hkey]

/-- Witness for the amended C10: paths `/a` and `///a` get the same
response, and `//wl` is rejected for the slash-free name `wl`. -/
theorem c10_amended_leading_slashes_collapse_witness :
    handle_request ⟨"bkt", "wl", [JScalar.str "123"], 60, 300⟩
        ⟨"GET", slashes 1 ++ "a", [("imei", "123")]⟩ =
      handle_request ⟨"bkt", "wl", [JScalar.str "123"], 60, 300⟩
        ⟨"GET", slashes 3 ++ "a", [("imei", "123")]⟩ ∧
    handle_request ⟨"bkt", "wl", [JScalar.str "123"], 60, 300⟩
        ⟨"GET", slashes 2 ++ "wl", [("imei", "123")]⟩ =
      .ok (.plain 403 "Forbidden") :=
  ⟨c10_amended_leading_slashes_collapse.1
      ⟨"bkt", "wl", [JScalar.str "123"], 60, 300⟩ "GET" [("imei", "123")] 1 3 "a",
   c10_amended_leading_slashes_collapse.2
      ⟨"bkt", "wl", [JScalar.str "123"], 60, 300⟩
      ⟨"GET", slashes 2 ++ "wl", [("imei", "123")]⟩ "123" 2
      (by decide) rfl (by decide) (by decide) rfl⟩
